import Mathlib

/-!
# Verification of the automizor client library

A shallow embedding of the two client modules of the repository:

* `automizor/vault/_vault.py` — the `Vault` class (secret management), and
* `automizor/storage/__init__.py` — the module-level storage functions.

The remote HTTP service and the `requests` library are modelled by an
explicit outcome value (`CallOutcome`) describing what a single HTTP request
did: either the request itself raised (timeout, connection failure, where the
exception carries no response object), or a response came back, characterised
by its status code, the text of the `HTTPError` that `raise_for_status` would
raise for it, the JSON parse of its body, and the result of building a
`SecretContainer` from that body.  Each vault operation is a function from
such outcomes to an observable record: the typed result (secret, not-found
error, or generic service error), the list of HTTP requests issued, and
whether the stray debug `print` in `_get_secret` executed.
-/

namespace Automizor

/-- Modelled from the spec: the `SecretContainer` dataclass
(`_container.py` is not under `src/`); per spec section 3 and 6, a secret is a
unique name together with a string-to-string mapping of credential fields. -/
structure Secret where
  name : String
  value : List (String × String)
deriving DecidableEq, Repr

/-- The HTTP method of a single request issued by a vault operation. -/
inductive Method where
  | GET
  | PUT
  | POST
deriving DecidableEq, Repr

/-- One HTTP request as issued by the code: method, url, and the `timeout=`
argument passed to the `requests` session call. -/
structure Request where
  method : Method
  url : String
  timeout : Nat
deriving DecidableEq, Repr

/-- Modelled from the Python semantics the vault code relies on: a JSON
value parsed from a response body, abstracted by the two attributes the code
observes of it — `rendered` is its f-string rendering `str(msg)`, and
`truthy` is its Python truthiness `bool(msg)`, which is `false` exactly for
`null`, `false`, `0`, the empty string, the empty array and the empty object
(such values render non-empty, e.g. an empty dict renders as two braces, so
truthiness is not determined by the rendering and is carried separately). -/
structure PyJson where
  rendered : String
  truthy : Bool
deriving DecidableEq, Repr

/-- What a response from the remote service looks like to the code.
`status` is the HTTP status code; `httpExcText` is `str(exc)` for the
`requests.HTTPError` that `raise_for_status` raises on a 4xx/5xx status;
`bodyJson` is `some m` when the response body is valid JSON (with `m` the
parsed value, abstracted by its rendering and truthiness) and `none` when
`response.json()` raises `ValueError`; `asSecret` is `some s` when
`SecretContainer(**response.json())` succeeds and `none` when it raises;
`decodeExcText` is `str(exc)` for the `ValueError`/`TypeError` raised in the
latter case. -/
structure RespData where
  status : Nat
  httpExcText : String
  bodyJson : Option PyJson
  asSecret : Option Secret
  decodeExcText : String
deriving DecidableEq, Repr

/-- The outcome of one `session.get`/`put`/`post` call: either the call
itself raised a `requests` exception whose `.response` is `None` (timeout,
connection failure) with text `excText`, or a response came back. -/
inductive CallOutcome where
  | failed (excText : String)
  | responded (r : RespData)
deriving DecidableEq, Repr

/-- Returns `true` when the outcome delivered an HTTP response (the request call
returned instead of raising). -/
def CallOutcome.isResponded : CallOutcome → Bool
  | .failed _ => false
  | .responded _ => true

/-- In the requests library, `raise_for_status` raises `HTTPError` exactly for
status codes in [400, 600). -/
def failsStatus (s : Nat) : Bool := 400 ≤ s && s < 600

/-- The typed result of a vault operation: `ok` returns the secret,
`notFound` models raising `SecretNotFoundError`, `serviceError` models
raising `AutomizorVaultError`.  Modelled from the spec: the exception
classes themselves live in `_exceptions.py`, which is not under `src/`;
per spec section 7 they are two distinct error kinds. -/
inductive VaultResult where
  | ok (s : Secret)
  | notFound (msg : String)
  | serviceError (msg : String)
deriving DecidableEq, Repr

/-- Returns `true` exactly when the result models a raised `SecretNotFoundError`. -/
def VaultResult.isNotFound : VaultResult → Bool
  | .notFound _ => true
  | _ => false

/-- The URL `https://{host}/api/v1/vault/secret/{name}/` built by
`_get_secret` and `_update_secret`. -/
def secretUrl (host name : String) : String :=
  "https://" ++ host ++ "/api/v1/vault/secret/" ++ name ++ "/"

/-- The URL `https://{host}/api/v1/vault/secret/` built by `_create_secret`. -/
def vaultBaseUrl (host : String) : String :=
  "https://" ++ host ++ "/api/v1/vault/secret/"

/-- The observable behavior of one public vault operation: its result, the
requests it issued (in order), and whether the debug `print(self.session)`
statement executed. -/
structure VaultCall where
  result : VaultResult
  requests : List Request
  printed : Bool
deriving DecidableEq, Repr

namespace Vault

/-- The body of `Vault._get_secret`: issue the GET; on an `HTTPError`, map
status 404 to `SecretNotFoundError` and any other raising status to
`AutomizorVaultError` built from `str(exc)`; on any other exception, try
`exc.response.json()` (an `AttributeError` when the exception carries no
response, as for timeouts and decode errors) and fall back to `str(exc)`. -/
def getSecretResult (name : String) (o : CallOutcome) : VaultResult :=
  match o with
  | .failed excText => .serviceError ("Failed to get secret: " ++ excText)
  | .responded r =>
    if failsStatus r.status then
      if r.status = 404 then
        .notFound ("Secret \x27" ++ name ++ "\x27 not found")
      else
        .serviceError ("Failed to get secret: " ++ r.httpExcText)
    else
      match r.asSecret with
      | some s => .ok s
      | none => .serviceError ("Failed to get secret: " ++ r.decodeExcText)

/-- The body of `Vault._update_secret`: issue the PUT; the handlers mirror
`_get_secret`, except that the generic handler's message reads
"Failed to set secret" while the `HTTPError` handler's message reads
"Failed to get secret" (as in the source). -/
def updateSecretResult (secret : Secret) (o : CallOutcome) : VaultResult :=
  match o with
  | .failed excText => .serviceError ("Failed to set secret: " ++ excText)
  | .responded r =>
    if failsStatus r.status then
      if r.status = 404 then
        .notFound ("Secret \x27" ++ secret.name ++ "\x27 not found")
      else
        .serviceError ("Failed to get secret: " ++ r.httpExcText)
    else
      match r.asSecret with
      | some s => .ok s
      | none => .serviceError ("Failed to set secret: " ++ r.decodeExcText)

/-- The body of `Vault._create_secret`: issue the POST; a single generic
handler catches every exception, tries `exc.response.json()` (which succeeds
for an `HTTPError`, whose `.response` is the response, when the body is valid
JSON) and falls back to `str(exc)`; the message renders `msg or exc`, so a
parsed body that is falsy in Python (`bool(msg)` false: `null`, `false`,
`0`, empty string/array/object) falls back to the exception text.  When the
handler's inner `try` fell through to `msg = str(exc)`, the rendering of
`msg or exc` is `str(exc)` either way (a falsy string is the empty string,
which renders the same as `str(exc)` then does), so those branches use the
exception text directly. -/
def createSecretPostResult (o : CallOutcome) : VaultResult :=
  match o with
  | .failed excText => .serviceError ("Failed to create secret: " ++ excText)
  | .responded r =>
    if failsStatus r.status then
      match r.bodyJson with
      | some msg =>
        .serviceError ("Failed to create secret: " ++
          (if msg.truthy then msg.rendered else r.httpExcText))
      | none => .serviceError ("Failed to create secret: " ++ r.httpExcText)
    else
      match r.asSecret with
      | some s => .ok s
      | none => .serviceError ("Failed to create secret: " ++ r.decodeExcText)

/-- The GET request issued by `_get_secret`, with the literal `timeout=10`
from the source. -/
def getRequest (host name : String) : Request :=
  ⟨.GET, secretUrl host name, 10⟩

/-- The PUT request issued by `_update_secret`, with the literal
`timeout=10` from the source. -/
def putRequest (host name : String) : Request :=
  ⟨.PUT, secretUrl host name, 10⟩

/-- The POST request issued by `_create_secret`, with the literal
`timeout=10` from the source. -/
def postRequest (host : String) : Request :=
  ⟨.POST, vaultBaseUrl host, 10⟩

/-- The public `Vault.get_secret`: delegates to `_get_secret`.  The debug
`print(self.session)` sits between `session.get` and `raise_for_status`,
so it executes exactly when the GET call returned a response. -/
def get_secret (host name : String) (o : CallOutcome) : VaultCall :=
  { result := getSecretResult name o
    requests := [getRequest host name]
    printed := o.isResponded }

/-- The public `Vault.set_secret`: delegates to `_update_secret`; no print statement. -/
def set_secret (host : String) (secret : Secret) (o : CallOutcome) : VaultCall :=
  { result := updateSecretResult secret o
    requests := [putRequest host secret.name]
    printed := false }

/-- The public `Vault.create_secret`: `try: return self._update_secret(secret)
except SecretNotFoundError: return self._create_secret(secret)`.  The PUT is
always issued; the POST is issued exactly when the PUT raised
`SecretNotFoundError`; any other error from the PUT propagates. -/
def create_secret (host : String) (secret : Secret)
    (putO postO : CallOutcome) : VaultCall :=
  match updateSecretResult secret putO with
  | .notFound _ =>
    { result := createSecretPostResult postO
      requests := [putRequest host secret.name, postRequest host]
      printed := false }
  | r =>
    { result := r
      requests := [putRequest host secret.name]
      printed := false }

end Vault

namespace Storage

/-- One delegation to `Storage.set_bytes`: the asset name, the uploaded
bytes (each a value in [0, 256)), and the MIME content type. -/
structure Upload where
  name : String
  data : List Nat
  contentType : String
deriving DecidableEq, Repr

/-- Modelled from the spec: the remote asset store behind the `Storage`
class (`_storage.py` is not under `src/`); per spec section 3, an asset is a
unique name mapped to an opaque byte sequence with a MIME content-type
string, with no versioning. -/
def AssetStore : Type := String → Option (List Nat × String)

/-- Modelled from the spec: `Storage.set_bytes` uploads raw content under a
name; "a write overwrites prior content at that name" (spec section 3). -/
def storeSetBytes (st : AssetStore) (name : String) (data : List Nat)
    (contentType : String) : AssetStore :=
  fun n => if n = name then some (data, contentType) else st n

/-- Modelled from the spec: `Storage.get_bytes` fetches the raw content of a
named asset, failing with a service error when the asset is missing
(spec section 4.1). -/
def storeGetBytes (st : AssetStore) (name : String) : Except String (List Nat) :=
  match st name with
  | some (data, _) => .ok data
  | none => .error ("Asset " ++ name ++ " not found")

/-- Splitting a character list on a separator, with the semantics of
Python `str.split(sep)`: `n` separators yield `n + 1` (possibly empty)
pieces. -/
def splitOnChar (sep : Char) : List Char → List (List Char)
  | [] => [[]]
  | c :: cs =>
    let rest := splitOnChar sep cs
    if c = sep then [] :: rest
    else
      match rest with
      | [] => [[c]]
      | piece :: pieces => (c :: piece) :: pieces

/-- Modelled from the Python standard library: the extension of a path, as
`posixpath.splitext` computes it for `mimetypes.guess_type` — the part of
the last path component from its last dot, where dots leading the component
do not start an extension. -/
def extOf (p : String) : Option (List Char) :=
  let base := ((splitOnChar '/' p.toList).reverse).headD p.toList
  let stem := base.dropWhile (fun c => c = '.')
  let parts := splitOnChar '.' stem
  if parts.length ≤ 1 then none
  else some ('.' :: (parts.reverse.headD []))

/-- Modelled from the Python standard library: the fragment of the
`mimetypes` suffix map exercised here. -/
def typesMap : List (String × String) :=
  [(".json", "application/json"),
   (".txt", "text/plain"),
   (".html", "text/html"),
   (".csv", "text/csv"),
   (".png", "image/png"),
   (".pdf", "application/pdf"),
   (".zip", "application/zip")]

/-- Modelled from the Python standard library: `mimetypes.guess_type`,
restricted to the plain extension-table lookup (first the extension as
given, then lowercased); compression-encoding suffix handling is elided. -/
def guess_type (p : String) : Option String :=
  (extOf p).bind fun e =>
    match typesMap.lookup (String.mk e) with
    | some t => some t
    | none => typesMap.lookup (String.mk (e.map Char.toLower))

/-- A JSON-serializable Python value, as the `json` module sees it. -/
inductive JsonValue where
  | null
  | bool (b : Bool)
  | num (n : Int)
  | str (s : String)
  | arr (xs : List JsonValue)
  | obj (fields : List (String × JsonValue))

mutual

/-- Modelled from the Python standard library: the text `json.dumps`
produces for a serializable value with default options (string escaping is
elided; the witnesses below use escape-free strings). -/
def render : JsonValue → String
  | .null => "null"
  | .bool b => if b then "true" else "false"
  | .num n => toString n
  | .str s => "\"" ++ s ++ "\""
  | .arr xs => "[" ++ renderItems xs ++ "]"
  | .obj fields => "\x7b" ++ renderFields fields ++ "\x7d"

/-- The comma-separated rendering of a JSON array's items. -/
def renderItems : List JsonValue → String
  | [] => ""
  | [x] => render x
  | x :: xs => render x ++ ", " ++ renderItems xs

/-- The comma-separated rendering of a JSON object's fields. -/
def renderFields : List (String × JsonValue) → String
  | [] => ""
  | [(k, v)] => "\"" ++ k ++ "\": " ++ render v
  | (k, v) :: fs => "\"" ++ k ++ "\": " ++ render v ++ ", " ++ renderFields fs

end

/-- A Python value passed to `set_json`: either JSON-serializable, or an
object of some type (named by `desc`) that the `json` encoder rejects. -/
inductive PyValue where
  | json (v : JsonValue)
  | other (desc : String)

/-- Modelled from the Python standard library: `json.dumps`, which renders a
serializable value and raises `TypeError` (here the `.error` case, carrying
`str(exc)`) on a non-serializable one. -/
def dumps : PyValue → Except String String
  | .json v => .ok (render v)
  | .other desc =>
    .error ("Object of type " ++ desc ++ " is not JSON serializable")

/-- The UTF-8 encoding of one character, as `str.encode("utf-8")` yields. -/
def utf8Char (c : Char) : List Nat :=
  let n := c.toNat
  if n < 128 then [n]
  else if n < 2048 then [192 + n / 64, 128 + n % 64]
  else if n < 65536 then [224 + n / 4096, 128 + (n / 64) % 64, 128 + n % 64]
  else [240 + n / 262144, 128 + (n / 4096) % 64, 128 + (n / 64) % 64,
        128 + n % 64]

/-- The UTF-8 encoding of a string, as `str.encode("utf-8")` yields. -/
def encodeUtf8 (s : String) : List Nat := s.toList.flatMap utf8Char

/-- The module-level `storage.set_bytes`: constructs a `Storage` and
delegates; on the asset store it is exactly `storeSetBytes`. -/
def set_bytes (st : AssetStore) (name : String) (data : List Nat)
    (contentType : String) : AssetStore :=
  storeSetBytes st name data contentType

/-- The module-level `storage.get_bytes`: constructs a `Storage` and
delegates; on the asset store it is exactly `storeGetBytes`. -/
def get_bytes (st : AssetStore) (name : String) : Except String (List Nat) :=
  storeGetBytes st name

/-- The module-level `storage.set_file`.  The local filesystem is the
function `fs` from paths to either the file's bytes or the text of the
`OSError` that `Path(path).read_bytes()` raises.  In the source the read
happens first; only then is the content type inferred (when omitted), the
`Storage` constructed, and `set_bytes` called.  The returned list holds the
uploads performed: empty exactly when the local read failed and its error
propagated unwrapped. -/
def set_file (fs : String → Except String (List Nat)) (name path : String)
    (content_type : Option String) : Except String Unit × List Upload :=
  match fs path with
  | .error e => (.error e, [])
  | .ok content =>
    let ct :=
      match content_type with
      | some c => c
      | none =>
        match guess_type path with
        | some c => c
        | none => "application/octet-stream"
    (.ok (), [⟨name, content, ct⟩])

/-- The module-level `storage.set_json`: `json.dumps(value, **kwargs)` runs
first, and a `TypeError` from it propagates unwrapped; on success the UTF-8
bytes of the rendered JSON are uploaded via `set_bytes` with content type
`application/json`. -/
def set_json (name : String) (value : PyValue) :
    Except String Unit × List Upload :=
  match dumps value with
  | .error e => (.error e, [])
  | .ok s => (.ok (), [⟨name, encodeUtf8 s, "application/json"⟩])

end Storage

/-- Returns `true` when `pat` matches the leading characters of the second list. -/
def matchesAt : List Char → List Char → Bool
  | [], _ => true
  | _ :: _, [] => false
  | p :: ps, c :: cs => p == c && matchesAt ps cs

/-- Returns `true` when `pat` occurs starting at some position of the list. -/
def containsSub (pat : List Char) : List Char → Bool
  | [] => matchesAt pat []
  | c :: cs => matchesAt pat (c :: cs) || containsSub pat cs

/-- Returns `true` when `pat` occurs as a contiguous substring of `s`. -/
def strContains (s pat : String) : Bool :=
  containsSub pat.toList s.toList

/-! ## Helper lemmas -/

/-- Helper: `_update_secret` raises `SecretNotFoundError` exactly when the PUT came
back with an HTTP response of status 404. -/
theorem updateSecretResult_isNotFound_iff (secret : Secret) (o : CallOutcome) :
    (Vault.updateSecretResult secret o).isNotFound = true ↔
      ∃ r, o = .responded r ∧ r.status = 404 := by
  cases o with
  | failed e => simp [Vault.updateSecretResult, VaultResult.isNotFound]
  | responded r =>
    simp only [Vault.updateSecretResult]
    split
    next hf =>
      split
      next h4 =>
        simp only [VaultResult.isNotFound, true_iff]
        exact ⟨r, rfl, h4⟩
      next h4 =>
        refine iff_of_false (by simp [VaultResult.isNotFound]) ?_
        rintro ⟨r', hr, h4'⟩
        cases hr
        exact h4 h4'
    next hf =>
      cases ha : r.asSecret <;>
        · refine iff_of_false (by simp [VaultResult.isNotFound]) ?_
          rintro ⟨r', hr, h4'⟩
          cases hr
          exact hf (by rw [h4']; decide)

/-! ## Claims -/

/-- C1: `create_secret` always issues the PUT (update) first, and issues the
POST (create) exactly when the update raised the not-found error — which
happens exactly when the PUT got an HTTP 404 response.  When it falls back,
the result is the POST's outcome; otherwise the PUT's outcome stands, with
exactly one PUT and no POST issued. -/
theorem create_secret_update_then_create (host : String) (secret : Secret)
    (putO postO : CallOutcome) :
    ((Vault.create_secret host secret putO postO).requests =
      if (Vault.updateSecretResult secret putO).isNotFound then
        [Vault.putRequest host secret.name, Vault.postRequest host]
      else [Vault.putRequest host secret.name])
    ∧ ((Vault.updateSecretResult secret putO).isNotFound = true ↔
        ∃ r, putO = .responded r ∧ r.status = 404)
    ∧ ((Vault.updateSecretResult secret putO).isNotFound = true →
        (Vault.create_secret host secret putO postO).result =
          Vault.createSecretPostResult postO)
    ∧ ((Vault.updateSecretResult secret putO).isNotFound = false →
        (Vault.create_secret host secret putO postO).result =
          Vault.updateSecretResult secret putO) := by
  refine ⟨?_, updateSecretResult_isNotFound_iff secret putO, ?_, ?_⟩ <;>
    cases hu : Vault.updateSecretResult secret putO <;>
      simp [Vault.create_secret, hu, VaultResult.isNotFound]

/-- C1 witness: on a PUT that 404s, the fallback POST is issued and its
outcome is returned. -/
theorem create_secret_update_then_create_witness :
    (Vault.create_secret "h" ⟨"s", []⟩
        (.responded ⟨404, "404 Client Error", none, none, ""⟩)
        (.responded ⟨201, "", none, some ⟨"s", []⟩, ""⟩)).requests =
      [Vault.putRequest "h" "s", Vault.postRequest "h"]
    ∧ (Vault.create_secret "h" ⟨"s", []⟩
        (.responded ⟨404, "404 Client Error", none, none, ""⟩)
        (.responded ⟨201, "", none, some ⟨"s", []⟩, ""⟩)).result =
      Vault.createSecretPostResult (.responded ⟨201, "", none, some ⟨"s", []⟩, ""⟩) := by
  have h := create_secret_update_then_create "h" ⟨"s", []⟩
      (.responded ⟨404, "404 Client Error", none, none, ""⟩)
      (.responded ⟨201, "", none, some ⟨"s", []⟩, ""⟩)
  refine ⟨?_, h.2.2.1 (by decide)⟩
  have h1 := h.1
  rwa [if_pos (by decide)] at h1

/-- C2: `get_secret` maps an HTTP 404 response to `SecretNotFoundError`, any
other raising status and any request failure to `AutomizorVaultError`, and
the two error kinds are distinct. -/
theorem get_secret_notFound_distinct (host name : String) (o : CallOutcome) :
    (∀ r : RespData, o = .responded r → r.status = 404 →
      (Vault.get_secret host name o).result =
        .notFound ("Secret \x27" ++ name ++ "\x27 not found"))
    ∧ (∀ r : RespData, o = .responded r → failsStatus r.status = true →
        r.status ≠ 404 →
        (Vault.get_secret host name o).result =
          .serviceError ("Failed to get secret: " ++ r.httpExcText))
    ∧ (∀ e, o = .failed e →
        (Vault.get_secret host name o).result =
          .serviceError ("Failed to get secret: " ++ e))
    ∧ (∀ m m' : String, VaultResult.notFound m ≠ VaultResult.serviceError m') := by
  refine ⟨?_, ?_, ?_, ?_⟩
  · rintro r rfl h4
    simp [Vault.get_secret, Vault.getSecretResult, h4, failsStatus]
  · rintro r rfl hf h4
    simp [Vault.get_secret, Vault.getSecretResult, hf, h4]
  · rintro e rfl
    simp [Vault.get_secret, Vault.getSecretResult]
  · intro m m' h
    cases h

/-- C2 witness: a 404 GET yields the not-found error; a request failure
yields the generic service error. -/
theorem get_secret_notFound_distinct_witness :
    (Vault.get_secret "h" "missing"
        (.responded ⟨404, "404 Client Error", none, none, ""⟩)).result =
      .notFound "Secret \x27missing\x27 not found"
    ∧ (Vault.get_secret "h" "missing" (.failed "connection refused")).result =
      .serviceError "Failed to get secret: connection refused" := by
  exact ⟨(get_secret_notFound_distinct "h" "missing" _).1 _ rfl rfl,
    (get_secret_notFound_distinct "h" "missing" _).2.2.1 _ rfl⟩

/-- C4: `set_secret` issues exactly one PUT addressed by the secret's name,
maps an HTTP 404 response to `SecretNotFoundError`, and maps any other
raising status and any request failure to `AutomizorVaultError`. -/
theorem set_secret_put_by_name (host : String) (secret : Secret)
    (o : CallOutcome) :
    (Vault.set_secret host secret o).requests =
      [⟨.PUT, secretUrl host secret.name, 10⟩]
    ∧ (∀ r : RespData, o = .responded r → r.status = 404 →
        (Vault.set_secret host secret o).result =
          .notFound ("Secret \x27" ++ secret.name ++ "\x27 not found"))
    ∧ (∀ r : RespData, o = .responded r → failsStatus r.status = true →
        r.status ≠ 404 →
        (Vault.set_secret host secret o).result =
          .serviceError ("Failed to get secret: " ++ r.httpExcText))
    ∧ (∀ e, o = .failed e →
        (Vault.set_secret host secret o).result =
          .serviceError ("Failed to set secret: " ++ e)) := by
  refine ⟨rfl, ?_, ?_, ?_⟩
  · rintro r rfl h4
    simp [Vault.set_secret, Vault.updateSecretResult, h4, failsStatus]
  · rintro r rfl hf h4
    simp [Vault.set_secret, Vault.updateSecretResult, hf, h4]
  · rintro e rfl
    simp [Vault.set_secret, Vault.updateSecretResult]

/-- C4 witness: a 404 PUT yields the not-found error; a 500 PUT yields the
generic service error. -/
theorem set_secret_put_by_name_witness :
    (Vault.set_secret "h" ⟨"s", []⟩
        (.responded ⟨404, "404 Client Error", none, none, ""⟩)).result =
      .notFound "Secret \x27s\x27 not found"
    ∧ (Vault.set_secret "h" ⟨"s", []⟩
        (.responded ⟨500, "500 Server Error", none, none, ""⟩)).result =
      .serviceError "Failed to get secret: 500 Server Error" := by
  exact ⟨(set_secret_put_by_name "h" ⟨"s", []⟩ _).2.1 _ rfl rfl,
    (set_secret_put_by_name "h" ⟨"s", []⟩ _).2.2.1 _ rfl (by decide) (by decide)⟩

/-- C8 counterexample: a fully successful `get_secret` call (HTTP 200, body
decodes into a secret) still executes the debug `print(self.session)`, so
the print is not confined to the error path. -/
theorem get_secret_prints_on_success :
    (Vault.get_secret "h" "n"
        (.responded ⟨200, "", none, some ⟨"n", [("user", "admin")]⟩, ""⟩)).result
      = .ok ⟨"n", [("user", "admin")]⟩
    ∧ (Vault.get_secret "h" "n"
        (.responded ⟨200, "", none, some ⟨"n", [("user", "admin")]⟩, ""⟩)).printed
      = true :=
  ⟨rfl, rfl⟩

/-- C8 (amended): the debug print executes exactly when the GET call
returned an HTTP response — on success as well as on HTTP-error statuses —
and is skipped only when the request itself raised; `set_secret` and
`create_secret` never print. -/
theorem get_secret_printed_iff_response (host name : String) (secret : Secret)
    (o putO postO : CallOutcome) :
    (Vault.get_secret host name o).printed = o.isResponded
    ∧ (Vault.set_secret host secret o).printed = false
    ∧ (Vault.create_secret host secret putO postO).printed = false := by
  refine ⟨rfl, rfl, ?_⟩
  cases hu : Vault.updateSecretResult secret putO <;>
    simp [Vault.create_secret, hu]

/-- C3 counterexample: a PUT in `set_secret` that comes back 500 with a
valid-JSON error body raises `AutomizorVaultError` whose message carries the
raw exception text, not the structured detail from the body — the claim that
every vault call surfaces the JSON body detail fails on the `HTTPError`
branch of `_update_secret` (and likewise `_get_secret`). -/
theorem vault_error_detail_counterexample :
    (Vault.set_secret "h" ⟨"s", []⟩
        (.responded ⟨500, "500 Server Error", some ⟨"quota exceeded", true⟩,
          none, ""⟩)).result
      = .serviceError "Failed to get secret: 500 Server Error"
    ∧ strContains "Failed to get secret: 500 Server Error" "quota exceeded"
      = false := by
  exact ⟨rfl, by decide⟩

/-- C3 (amended): for a non-2xx, non-404 response, `get_secret` and
`set_secret` raise `AutomizorVaultError` carrying the raw `HTTPError` text
regardless of the body; only `create_secret`'s POST error path embeds the
structured JSON detail, and only when the body is valid JSON and the parsed
value is truthy in Python — when the body is not JSON, or the parsed value
is falsy (`null`, `false`, `0`, empty string/array/object), the exception
text is used instead. -/
theorem vault_error_detail_amended (host name : String) (secret : Secret)
    (r : RespData) (hf : failsStatus r.status = true) (h4 : r.status ≠ 404) :
    (Vault.get_secret host name (.responded r)).result =
      .serviceError ("Failed to get secret: " ++ r.httpExcText)
    ∧ (Vault.set_secret host secret (.responded r)).result =
      .serviceError ("Failed to get secret: " ++ r.httpExcText)
    ∧ Vault.createSecretPostResult (.responded r) =
      .serviceError ("Failed to create secret: " ++
        (match r.bodyJson with
         | some m => if m.truthy then m.rendered else r.httpExcText
         | none => r.httpExcText)) := by
  refine ⟨?_, ?_, ?_⟩
  · simp [Vault.get_secret, Vault.getSecretResult, hf, h4]
  · simp [Vault.set_secret, Vault.updateSecretResult, hf, h4]
  · cases hb : r.bodyJson <;>
      simp [Vault.createSecretPostResult, hf, hb]

/-- C3 amended witness: at status 500 with a truthy JSON body detail,
GET/PUT carry the raw text while the POST carries the structured detail; at
status 500 with a falsy JSON body (an empty object, rendered as two braces),
the POST falls back to the raw exception text. -/
theorem vault_error_detail_amended_witness :
    (Vault.get_secret "h" "n"
        (.responded ⟨500, "500 Server Error", some ⟨"quota exceeded", true⟩,
          none, ""⟩)).result
      = .serviceError "Failed to get secret: 500 Server Error"
    ∧ (Vault.set_secret "h" ⟨"n", []⟩
        (.responded ⟨500, "500 Server Error", some ⟨"quota exceeded", true⟩,
          none, ""⟩)).result
      = .serviceError "Failed to get secret: 500 Server Error"
    ∧ Vault.createSecretPostResult
        (.responded ⟨500, "500 Server Error", some ⟨"quota exceeded", true⟩,
          none, ""⟩)
      = .serviceError "Failed to create secret: quota exceeded"
    ∧ Vault.createSecretPostResult
        (.responded ⟨500, "500 Server Error", some ⟨"\x7b\x7d", false⟩,
          none, ""⟩)
      = .serviceError "Failed to create secret: 500 Server Error" := by
  have h1 := vault_error_detail_amended "h" "n" ⟨"n", []⟩
    ⟨500, "500 Server Error", some ⟨"quota exceeded", true⟩, none, ""⟩
    (by decide) (by decide)
  have h2 := vault_error_detail_amended "h" "n" ⟨"n", []⟩
    ⟨500, "500 Server Error", some ⟨"\x7b\x7d", false⟩, none, ""⟩
    (by decide) (by decide)
  exact ⟨h1.1, h1.2.1, h1.2.2, h2.2.2⟩

/-- C7: every request issued by the three vault operations carries the fixed
`timeout=10`; a request-level failure (the timeout case included) yields the
generic `AutomizorVaultError`, and no retry happens — the operation never
issues a second request after a failed one. -/
theorem vault_timeout_fixed_no_retry (host name : String) (secret : Secret)
    (o putO postO : CallOutcome) :
    ((Vault.get_secret host name o).requests.all
      fun q => q.timeout == 10) = true
    ∧ ((Vault.set_secret host secret o).requests.all
      fun q => q.timeout == 10) = true
    ∧ ((Vault.create_secret host secret putO postO).requests.all
      fun q => q.timeout == 10) = true
    ∧ (∀ e, o = .failed e →
        (Vault.get_secret host name o).result =
          .serviceError ("Failed to get secret: " ++ e)
        ∧ (Vault.get_secret host name o).requests.length = 1
        ∧ (Vault.set_secret host secret o).result =
          .serviceError ("Failed to set secret: " ++ e)
        ∧ (Vault.set_secret host secret o).requests.length = 1)
    ∧ (∀ e, putO = .failed e →
        (Vault.create_secret host secret putO postO).result =
          .serviceError ("Failed to set secret: " ++ e)
        ∧ (Vault.create_secret host secret putO postO).requests.length = 1) := by
  refine ⟨rfl, rfl, ?_, ?_, ?_⟩
  · cases hu : Vault.updateSecretResult secret putO <;>
      simp [Vault.create_secret, hu, Vault.putRequest, Vault.postRequest]
  · rintro e rfl
    exact ⟨rfl, rfl, rfl, rfl⟩
  · rintro e rfl
    simp [Vault.create_secret, Vault.updateSecretResult]

/-- C7 witness: a timed-out GET and a timed-out PUT each yield the generic
service error from a single request, and a timed-out PUT inside
`create_secret` is not followed by a POST. -/
theorem vault_timeout_fixed_no_retry_witness :
    (Vault.get_secret "h" "n" (.failed "timed out")).result =
      .serviceError "Failed to get secret: timed out"
    ∧ (Vault.get_secret "h" "n" (.failed "timed out")).requests.length = 1
    ∧ (Vault.create_secret "h" ⟨"n", []⟩ (.failed "timed out")
        (.responded ⟨201, "", none, some ⟨"n", []⟩, ""⟩)).requests.length = 1 := by
  refine ⟨?_, ?_, ?_⟩
  · exact ((vault_timeout_fixed_no_retry "h" "n" ⟨"n", []⟩ (.failed "timed out")
      (.failed "timed out") (.responded ⟨201, "", none, some ⟨"n", []⟩, ""⟩)).2.2.2.1
      "timed out" rfl).1
  · exact ((vault_timeout_fixed_no_retry "h" "n" ⟨"n", []⟩ (.failed "timed out")
      (.failed "timed out") (.responded ⟨201, "", none, some ⟨"n", []⟩, ""⟩)).2.2.2.1
      "timed out" rfl).2.1
  · exact ((vault_timeout_fixed_no_retry "h" "n" ⟨"n", []⟩ (.failed "timed out")
      (.failed "timed out") (.responded ⟨201, "", none, some ⟨"n", []⟩, ""⟩)).2.2.2.2
      "timed out" rfl).2

/-- C5: with `content_type` omitted, `set_file` uploads the file's bytes via
`set_bytes` under the content type inferred from the path's extension:
`application/json` when the extension is `.json`, and
`application/octet-stream` when inference fails. -/
theorem set_file_infers_content_type
    (fs : String → Except String (List Nat)) (name path : String)
    (data : List Nat) (h : fs path = .ok data) :
    Storage.set_file fs name path none =
      (.ok (), [⟨name, data,
        (Storage.guess_type path).getD "application/octet-stream"⟩])
    ∧ (Storage.extOf path = some ".json".toList →
        (Storage.guess_type path).getD "application/octet-stream" =
          "application/json")
    ∧ (Storage.guess_type path = none →
        (Storage.guess_type path).getD "application/octet-stream" =
          "application/octet-stream") := by
  refine ⟨?_, ?_, ?_⟩
  · simp only [Storage.set_file, h]
    cases hg : Storage.guess_type path <;> simp [hg]
  · intro he
    simp only [Storage.guess_type, he]
    rfl
  · intro hg
    simp [hg]

/-- C5 witness: a `.json` path uploads under `application/json`; an
unrecognized extension uploads under `application/octet-stream`. -/
theorem set_file_infers_content_type_witness :
    Storage.set_file
        (fun p => if p = "dir/data.json" then .ok [123, 125] else .error "x")
        "a" "dir/data.json" none =
      (.ok (), [⟨"a", [123, 125], "application/json"⟩])
    ∧ Storage.set_file
        (fun p => if p = "blob.xyz" then .ok [0] else .error "x")
        "b" "blob.xyz" none =
      (.ok (), [⟨"b", [0], "application/octet-stream"⟩]) := by
  constructor
  · exact (set_file_infers_content_type
      (fun p => if p = "dir/data.json" then .ok [123, 125] else .error "x")
      "a" "dir/data.json" [123, 125] rfl).1
  · exact (set_file_infers_content_type
      (fun p => if p = "blob.xyz" then .ok [0] else .error "x")
      "b" "blob.xyz" [0] rfl).1

/-- C6: `set_json` propagates the JSON encoder's own error verbatim for a
non-serializable value, uploading nothing; for a serializable value it
uploads the UTF-8 bytes of the rendered JSON via `set_bytes` with content
type `application/json`. -/
theorem set_json_error_and_upload (name desc e : String)
    (v : Storage.JsonValue) (h : Storage.dumps (.other desc) = .error e) :
    Storage.set_json name (.other desc) = (.error e, [])
    ∧ Storage.set_json name (.json v) =
      (.ok (), [⟨name, Storage.encodeUtf8 (Storage.render v),
        "application/json"⟩]) := by
  constructor
  · simp only [Storage.dumps] at h
    injection h with he
    subst he
    rfl
  · rfl

/-- C6 witness: a non-serializable value fails with the encoder's
`TypeError` text and uploads nothing; a serializable one uploads the UTF-8
JSON bytes under `application/json`. -/
theorem set_json_error_and_upload_witness :
    Storage.set_json "cfg" (.other "Decimal") =
      (.error "Object of type Decimal is not JSON serializable", [])
    ∧ Storage.set_json "cfg" (.json (.str "hi")) =
      (.ok (), [⟨"cfg", [34, 104, 105, 34], "application/json"⟩]) := by
  have h := set_json_error_and_upload "cfg" "Decimal"
      "Object of type Decimal is not JSON serializable" (.str "hi") rfl
  exact ⟨h.1, h.2⟩

/-- C9: on the modelled asset store, `set_bytes` followed by `get_bytes` at
the same name returns exactly the stored byte sequence, for every prior
store state, name, byte sequence and content type. -/
theorem set_bytes_get_bytes_roundtrip (st : Storage.AssetStore)
    (name : String) (data : List Nat) (contentType : String) :
    Storage.get_bytes (Storage.set_bytes st name data contentType) name =
      .ok data := by
  simp [Storage.get_bytes, Storage.set_bytes, Storage.storeGetBytes,
    Storage.storeSetBytes]

/-- C10: `set_file` reads the local source file before constructing the
storage client or uploading: when the read fails, its error propagates
unwrapped and no upload is delegated, whatever the `content_type`
argument. -/
theorem set_file_read_failure_no_upload
    (fs : String → Except String (List Nat)) (name path : String)
    (contentType : Option String) (e : String) (h : fs path = .error e) :
    Storage.set_file fs name path contentType = (.error e, []) := by
  simp [Storage.set_file, h]

/-- C10 witness: a failing read propagates its error with zero uploads. -/
theorem set_file_read_failure_no_upload_witness :
    Storage.set_file (fun _ => .error "No such file or directory")
      "a" "missing.bin" none = (.error "No such file or directory", []) :=
  set_file_read_failure_no_upload _ "a" "missing.bin" none _ rfl

end Automizor
